import Mathlib

/-!
Verification of the AgriDiag Streamlit application (src/Agri app/app.py)
against its natural-language specification.

The app is a thin orchestration layer: it resolves an API key at startup,
lets the user upload a plant image, normalizes it to JPEG, and on one of
three button presses sends the image plus a prompt to a remote model,
displaying the returned text.  The embedding below models:
  - Python truthiness and the key-resolution expression (app.py line 19),
  - the PIL decode / convert("RGB") / save JPEG quality=90 pipeline
    (lines 69-83),
  - the soft size check (lines 86-88),
  - the three prompt strings (lines 95-113 and 142-146),
  - call_gemini_with_image, modelled over the outcome of the underlying
    API call (lines 41-64),
  - the Streamlit rerun display semantics of the button handlers
    (lines 123-150): the page is rebuilt from scratch on each interaction
    and the script stores no result in any session state.
-/

namespace AgriApp

/-- Python truthiness of an optional string: None and the empty string are
falsy, every other string is truthy. -/
def truthy : Option String → Bool
  | none => false
  | some s => !s.isEmpty

/-- app.py line 19: GEMINI_KEY = os.environ.get("GEMINI_API_KEY") or
st.secrets.get("GEMINI_API_KEY", None).  Python `a or b` yields `a` when
`a` is truthy, else `b`. -/
def GEMINI_KEY (env secrets : Option String) : Option String :=
  if truthy env then env else secrets

/-- The characters stripped by Python str.strip() with no argument: every
codepoint CPython's Py_UNICODE_ISSPACE accepts — the ASCII whitespace and
separator controls (U+0009-U+000D, U+001C-U+001F, U+0020), NEL (U+0085),
NBSP (U+00A0), OGHAM SPACE MARK (U+1680), the U+2000-U+200A spaces, LINE
and PARAGRAPH SEPARATOR (U+2028, U+2029), NARROW NBSP (U+202F), MEDIUM
MATHEMATICAL SPACE (U+205F) and IDEOGRAPHIC SPACE (U+3000). -/
def isPyWhitespace (c : Char) : Bool :=
  [0x09, 0x0a, 0x0b, 0x0c, 0x0d, 0x1c, 0x1d, 0x1e, 0x1f, 0x20,
    0x85, 0xa0, 0x1680, 0x2028, 0x2029, 0x202f, 0x205f, 0x3000].contains c.toNat
  || (0x2000 ≤ c.toNat && c.toNat ≤ 0x200a)

/-- Python str.strip(): remove leading and trailing whitespace. -/
def pyStrip (s : String) : String :=
  String.mk (((s.data.dropWhile isPyWhitespace).reverse.dropWhile isPyWhitespace).reverse)

/-- An RGBA pixel as PIL stores it (one byte per channel). -/
structure RGBA where
  r : Nat
  g : Nat
  b : Nat
  a : Nat
deriving DecidableEq

/-- An RGB pixel. -/
structure RGB where
  r : Nat
  g : Nat
  b : Nat
deriving DecidableEq

/-- A decoded PIL image: its pixel data (modelled in RGBA; an image with no
transparency simply has every alpha equal to 255). -/
structure PILImage where
  pixels : List RGBA
deriving DecidableEq

/-- PIL Image.convert("RGB") on one pixel: the alpha channel is dropped and
the stored colour channels are kept unchanged.  PIL does not composite the
pixel over any background in this mode. -/
def convertRGBPixel (p : RGBA) : RGB :=
  ⟨p.r, p.g, p.b⟩

/-- app.py line 81: rgb = image.convert("RGB"). -/
def convertRGB (img : PILImage) : List RGB :=
  img.pixels.map convertRGBPixel

/-- The canonical encoded form produced by rgb.save(buf, format="JPEG",
quality=90) (app.py line 82): the format tag, the quality level and the
pixel data that went into the encoder. -/
structure JPEGEncoding where
  format : String
  quality : Nat
  pixels : List RGB
deriving DecidableEq

/-- app.py lines 80-83: encode the converted image as JPEG at quality 90. -/
def saveJPEG (px : List RGB) : JPEGEncoding :=
  ⟨"JPEG", 90, px⟩

/-- The whole normalization step of app.py lines 80-83. -/
def normalize (img : PILImage) : JPEGEncoding :=
  saveJPEG (convertRGB img)

/-- Modelled from the spec: compositing a source pixel onto an opaque
background colour (standard alpha-over with byte alpha), which §4.1 claims
the normalizer performs.  The code does not contain this operation; it is
stated here only to be compared with convertRGBPixel. -/
def compositeOver (bg : RGB) (p : RGBA) : RGB :=
  ⟨(p.r * p.a + bg.r * (255 - p.a)) / 255,
   (p.g * p.a + bg.g * (255 - p.a)) / 255,
   (p.b * p.a + bg.b * (255 - p.a)) / 255⟩

/-- app.py lines 86-88: size_mb = len(image_bytes)/(1024*1024); warn when
size_mb > 18.  Over the exact rationals (the float computation is exact
here since 1024*1024 is a power of two) this is nbytes > 18*1048576. -/
def sizeWarned (nbytes : Nat) : Bool :=
  decide (18 * 1048576 < nbytes)

/-- app.py line 95: the prebuilt disease-identification prompt. -/
def prompt_find_disease : String :=
  "You are an expert plant pathologist and agronomist. Analyze the supplied image and:\n" ++
  "1) Name the most likely disease(s) or disorder(s) (be explicit about uncertainty).\n" ++
  "2) List the visible symptoms you see (e.g., leaf spots, lesions, discoloration, wilting) linked to the image.\n" ++
  "3) Suggest the most probable causal agent (fungus, bacteria, virus, nutrient deficiency, abiotic stress) and why.\n" ++
  "4) Provide a short confidence estimate (low/medium/high) and what additional observations or simple tests would increase confidence.\n" ++
  "Answer concisely in bullet points and prioritize actionable diagnostic clues."

/-- app.py line 105: the prebuilt management-advice prompt. -/
def prompt_suggestions : String :=
  "You are an experienced crop protection specialist. Based on the supplied image and" ++
  " likely disease/disorder, provide practical control and management advice in order:\n" ++
  "A) Immediate short-term actions (isolation, sanitation, removal of affected tissue).\n" ++
  "B) Cultural and non-chemical solutions (crop rotation, irrigation changes, pruning, resistant varieties).\n" ++
  "C) If chemical control is recommended: list pesticide types (active ingredient classes), approximate application rates or guidance (give ranges), and safety/environmental precautions.\n" ++
  "D) Monitoring plan: what to watch for, when to re-check, and when to seek lab confirmation.\n" ++
  "End with a short list of low-cost confirmatory tests or photos to take for diagnosis."

/-- The spec names the disease prompt as a zero-argument operation of the
Prompt Catalog; in the code it is the fixed string above, rebuilt from the
same literal on every script run. -/
def find_disease (_ : Unit) : String := prompt_find_disease

/-- The spec names the advice prompt as a zero-argument operation of the
Prompt Catalog; in the code it is the fixed string above. -/
def management_advice (_ : Unit) : String := prompt_suggestions

/-- app.py lines 142-146: the wrapper built around the user question by the
custom-prompt button (the f-string embeds custom_user_prompt verbatim). -/
def combined_prompt (custom_user_prompt : String) : String :=
  "You are a helpful plant pathology assistant. Use the image to inform your answer.\n\n" ++
  "User question: " ++ custom_user_prompt ++ "\n\n" ++
  "Provide a concise, practical answer and list any assumptions you made."

/-- Outcome of the custom-prompt button handler (app.py lines 138-150). -/
inductive CustomResult
  | emptyWarning (msg : String)
  | asked (promptText : String)
deriving DecidableEq

/-- app.py lines 139-148: if not custom_user_prompt.strip() show a warning
and make no call; otherwise build the combined prompt and call the model. -/
def customHandler (q : String) : CustomResult :=
  if pyStrip q = "" then
    CustomResult.emptyWarning "Please enter a custom prompt in the text box before clicking this button."
  else
    CustomResult.asked (combined_prompt q)

/-- The three user-triggerable actions. -/
inductive Action
  | findDisease
  | advice
  | custom
deriving DecidableEq

/-- The prompt each button resolves for its call (app.py lines 126, 133, 148). -/
def promptFor : Action → String → String
  | Action.findDisease, _ => prompt_find_disease
  | Action.advice, _ => prompt_suggestions
  | Action.custom, q => combined_prompt q

/-- The thinking budget each button passes (app.py lines 126, 133, 148). -/
def thinkingBudget : Action → Nat
  | Action.findDisease => 500
  | Action.advice => 400
  | Action.custom => 200

/-- A content part of the outbound request (app.py lines 48-50). -/
inductive Part
  | imagePart (data : JPEGEncoding) (mime : String)
  | textPart (t : String)
deriving DecidableEq

/-- app.py line 50: contents = [img_part, prompt_text], with img_part built
from the image bytes with mime type image/jpeg (line 48). -/
def contents (imageBytes : JPEGEncoding) (promptText : String) : List Part :=
  [Part.imagePart imageBytes "image/jpeg", Part.textPart promptText]

/-- The request content parts a given action's button press produces. -/
def requestFor (act : Action) (imageBytes : JPEGEncoding) (q : String) : List Part :=
  contents imageBytes (promptFor act q)

/-- Outcome of the underlying client.models.generate_content call inside
call_gemini_with_image: either a textual response or a raised exception
with message str(e). -/
inductive CallOutcome
  | success (text : String)
  | exn (msg : String)
deriving DecidableEq

/-- app.py lines 41-64: call_gemini_with_image returns response.text on
success and the plain string below when any exception is raised; it never
re-raises. -/
def call_gemini_with_image (outcome : CallOutcome) : String :=
  match outcome with
  | CallOutcome.success t => t
  | CallOutcome.exn e => "Error calling Gemini API: " ++ e

/-- A user-visible Streamlit output event emitted by a button handler. -/
inductive UIEvent
  | subheader (t : String)
  | write (t : String)
deriving DecidableEq

/-- app.py lines 124-128 (and the analogous 131-135, 138-150): a button
handler renders a subheader then writes the string returned by
call_gemini_with_image, through the same st.write path whether that string
is a model response or the error string. -/
def buttonRender (heading : String) (outcome : CallOutcome) : List UIEvent :=
  [UIEvent.subheader heading, UIEvent.write (call_gemini_with_image outcome)]

/-- Outcome of decoding the uploaded file with Image.open (app.py line 71). -/
inductive UploadOutcome
  | decodeOk (img : PILImage)
  | decodeFail (msg : String)
deriving DecidableEq

/-- Where one top-to-bottom run of the script ends up before any button
press.  st.stop() (app.py lines 22 and 74) aborts the run, so the stages
are mutually exclusive and the buttons exist only in the interactive one. -/
inductive FlowStage
  | haltedNoKey (errMsg : String)
  | noUpload
  | haltedDecode (errMsg : String)
  | interactive (enc : JPEGEncoding) (warned : Bool)
deriving DecidableEq

/-- One top-to-bottom run of app.py up to the action buttons.  encLen gives
the byte length of an encoding (the JPEG serializer's output size, which
the pixel-level model leaves abstract). -/
def runScript (env secrets : Option String) (upload : Option UploadOutcome)
    (encLen : JPEGEncoding → Nat) : FlowStage :=
  if !truthy (GEMINI_KEY env secrets) then
    FlowStage.haltedNoKey "Gemini API key not set. Set GEMINI_API_KEY in environment or in Streamlit secrets."
  else
    match upload with
    | none => FlowStage.noUpload
    | some (UploadOutcome.decodeFail e) =>
        FlowStage.haltedDecode ("Couldn\x27t open image: " ++ e)
    | some (UploadOutcome.decodeOk img) =>
        FlowStage.interactive (normalize img) (sizeWarned (encLen (normalize img)))

/-- How many outbound inference calls a run of the script performs, given
the stage it reached, the button pressed in that run (if any), and the
text in the custom-question box.  Buttons are only rendered in the
interactive stage; the custom button skips the call when the stripped
question is empty (app.py line 139). -/
def inferenceCalls (stage : FlowStage) (pressed : Option Action) (q : String) : Nat :=
  match stage, pressed with
  | FlowStage.interactive _ _, some Action.custom => if pyStrip q = "" then 0 else 1
  | FlowStage.interactive _ _, some _ => 1
  | _, _ => 0

/-- One Streamlit rerun of the results area: the page is rebuilt from
scratch, and only the branch of the button pressed in this rerun writes an
output.  The previous rerun's displayed result is not stored anywhere (the
script puts nothing in st.session_state), so the new display ignores it. -/
def rerun (_prev : Action → Option String) (pressed : Action) (result : String) :
    Action → Option String :=
  fun act => if act = pressed then some result else none

/-! ## Helper lemmas -/

/-- Helper: if every character surviving dropWhile is whitespace, the whole
list is whitespace. -/
lemma all_of_dropWhile_all (l : List Char)
    (h : ∀ x ∈ l.dropWhile isPyWhitespace, isPyWhitespace x) :
    ∀ x ∈ l, isPyWhitespace x := by
  induction l with
  | nil => intro x hx; cases hx
  | cons a t ih =>
    by_cases ha : isPyWhitespace a
    · intro x hx
      rcases List.mem_cons.mp hx with hxa | hxt
      · exact hxa ▸ ha
      · exact ih (by simpa [List.dropWhile_cons, ha] using h) x hxt
    · exfalso
      exact ha (h a (by simp [List.dropWhile_cons, ha]))

/-- Helper: Python str.strip() returns the empty string exactly when every
character of the string is whitespace. -/
lemma pyStrip_eq_empty_iff (s : String) :
    pyStrip s = "" ↔ s.data.all isPyWhitespace := by
  unfold pyStrip
  constructor
  · intro h
    have hnil : ((s.data.dropWhile isPyWhitespace).reverse.dropWhile isPyWhitespace).reverse
        = ([] : List Char) := by
      have := congrArg String.data h
      simpa using this
    have h2 : (s.data.dropWhile isPyWhitespace).reverse.dropWhile isPyWhitespace
        = ([] : List Char) := by
      simpa using congrArg List.reverse hnil
    have h3 : ∀ x ∈ (s.data.dropWhile isPyWhitespace).reverse, isPyWhitespace x :=
      List.dropWhile_eq_nil_iff.mp h2
    have h4 : ∀ x ∈ s.data.dropWhile isPyWhitespace, isPyWhitespace x := by
      intro x hx
      exact h3 x (List.mem_reverse.mpr hx)
    exact List.all_eq_true.mpr fun x hx => all_of_dropWhile_all s.data h4 x hx
  · intro h
    have h1 : s.data.dropWhile isPyWhitespace = [] :=
      List.dropWhile_eq_nil_iff.mpr fun x hx => List.all_eq_true.mp h x hx
    rw [h1]
    rfl

/-! ## Claim theorems -/

/-- C1 counterexample: the value call_gemini_with_image returns on an error
is not a distinguishable classified Failure; it is a plain string equal to
what a success whose text happens to have that shape returns. -/
theorem gemini_error_unclassified_counterexample :
    call_gemini_with_image (CallOutcome.exn "boom")
      = call_gemini_with_image (CallOutcome.success "Error calling Gemini API: boom") := rfl

/-- C1 (amended): on every error the function returns the single
unclassified string "Error calling Gemini API: " followed by the message;
no classification into AuthenticationError, QuotaOrRateLimitError,
PayloadTooLargeError, ServiceUnavailableError or UnknownError happens, and
the returned value is indistinguishable from a success carrying the same
text. -/
theorem gemini_error_single_string (e : String) :
    call_gemini_with_image (CallOutcome.exn e) = "Error calling Gemini API: " ++ e
    ∧ call_gemini_with_image (CallOutcome.exn e)
        = call_gemini_with_image (CallOutcome.success ("Error calling Gemini API: " ++ e)) :=
  ⟨rfl, rfl⟩

/-- C2: the custom action warns (and issues no inference call) exactly when
the question is blank or whitespace-only; for every other question the
resolved prompt contains the question verbatim as a substring. -/
theorem custom_question_contract (q : String) :
    ((∃ m, customHandler q = CustomResult.emptyWarning m) ↔ q.data.all isPyWhitespace)
    ∧ (∀ enc w, q.data.all isPyWhitespace →
        inferenceCalls (FlowStage.interactive enc w) (some Action.custom) q = 0)
    ∧ (¬ (q.data.all isPyWhitespace = true) →
        ∃ pre post, customHandler q = CustomResult.asked (pre ++ q ++ post)) := by
  by_cases hq : pyStrip q = ""
  · have hall : q.data.all isPyWhitespace := (pyStrip_eq_empty_iff q).mp hq
    refine ⟨?_, ?_, ?_⟩
    · simp [customHandler, hq, hall]
    · intro enc w _
      simp [inferenceCalls, hq]
    · intro hn
      exact absurd hall hn
  · have hall : ¬ (q.data.all isPyWhitespace = true) :=
      fun h => hq ((pyStrip_eq_empty_iff q).mpr h)
    refine ⟨?_, ?_, ?_⟩
    · constructor
      · rintro ⟨m, hm⟩
        simp [customHandler, hq] at hm
      · intro h
        exact absurd h hall
    · intro enc w h
      exact absurd h hall
    · intro _
      refine ⟨"You are a helpful plant pathology assistant. Use the image to inform your answer.\n\n"
          ++ "User question: ",
        "\n\n" ++ "Provide a concise, practical answer and list any assumptions you made.", ?_⟩
      simp [customHandler, hq, combined_prompt, String.append_assoc]

/-- C2 witness: a concrete non-blank question succeeds and its prompt
contains the question verbatim. -/
theorem custom_question_contract_witness :
    ∃ pre post, customHandler "Is this fungal?"
      = CustomResult.asked (pre ++ "Is this fungal?" ++ post) :=
  (custom_question_contract "Is this fungal?").2.2 (by decide)

/-- C3: the two prebuilt prompts are pure zero-argument functions: every
call returns the identical fixed string. -/
theorem prompt_catalog_pure :
    (∀ u v : Unit, find_disease u = find_disease v)
    ∧ (∀ u v : Unit, management_advice u = management_advice v)
    ∧ find_disease () = prompt_find_disease
    ∧ management_advice () = prompt_suggestions :=
  ⟨fun _ _ => rfl, fun _ _ => rfl, rfl, rfl⟩

/-- C4: when the uploaded bytes fail to decode the script halts at the
decode-error branch with a user-visible error, and no inference call is
made in that run, whatever button state or question text. -/
theorem decode_error_halts (env secrets : Option String) (encLen : JPEGEncoding → Nat)
    (e : String) (hkey : truthy (GEMINI_KEY env secrets) = true) :
    runScript env secrets (some (UploadOutcome.decodeFail e)) encLen
      = FlowStage.haltedDecode ("Couldn\x27t open image: " ++ e)
    ∧ ∀ pressed q,
        inferenceCalls (runScript env secrets (some (UploadOutcome.decodeFail e)) encLen)
          pressed q = 0 := by
  constructor
  · simp [runScript, hkey]
  · intro pressed q
    cases pressed <;> simp [runScript, hkey, inferenceCalls]

/-- C4 witness: concrete decode failure with the key present. -/
theorem decode_error_halts_witness :
    truthy (GEMINI_KEY (some "k") none) = true
    ∧ runScript (some "k") none (some (UploadOutcome.decodeFail "bad header")) (fun _ => 0)
        = FlowStage.haltedDecode ("Couldn\x27t open image: " ++ "bad header") :=
  ⟨by decide,
   (decode_error_halts (some "k") none (fun _ => 0) "bad header" (by decide)).1⟩

/-- C5 counterexample: after a result for findDisease is displayed, a rerun
that records a result for the custom action does NOT leave findDisease
unchanged: its displayed result is gone. -/
theorem result_not_persisted_counterexample :
    rerun (rerun (fun _ => none) Action.findDisease "r1") Action.custom "r2" Action.findDisease
      ≠ rerun (fun _ => none) Action.findDisease "r1" Action.findDisease := by
  simp [rerun]

/-- C5 (amended): each Streamlit rerun displays only the result of the
action pressed in that rerun; recording a result for one action clears
every other action's displayed result, because the script stores no
per-action results across reruns. -/
theorem rerun_displays_only_pressed (prev : Action → Option String)
    (pressed act : Action) (result : String) (h : act ≠ pressed) :
    rerun prev pressed result act = none
    ∧ rerun prev pressed result pressed = some result := by
  constructor
  · simp [rerun, h]
  · simp [rerun]

/-- C5 witness: pressing custom clears the findDisease display. -/
theorem rerun_displays_only_pressed_witness :
    rerun (fun _ => some "old") Action.custom "r2" Action.findDisease = none :=
  (rerun_displays_only_pressed (fun _ => some "old") Action.custom Action.findDisease "r2"
    (by decide)).1

/-- C6 counterexample: convert("RGB") keeps the stored colour of a fully
transparent pixel, which no compositing onto a fixed opaque background can
reproduce for every pixel. -/
theorem convert_not_composite_counterexample :
    convertRGBPixel ⟨255, 0, 0, 0⟩ = RGB.mk 255 0 0
    ∧ ¬ ∃ bg : RGB, ∀ p : RGBA, convertRGBPixel p = compositeOver bg p := by
  constructor
  · rfl
  · rintro ⟨bg, h⟩
    have h1 := h ⟨0, 0, 0, 0⟩
    have h2 := h ⟨255, 255, 255, 0⟩
    have hc : compositeOver bg ⟨0, 0, 0, 0⟩ = compositeOver bg ⟨255, 255, 255, 0⟩ := by
      simp [compositeOver]
    have hcontr : convertRGBPixel ⟨0, 0, 0, 0⟩ = convertRGBPixel (⟨255, 255, 255, 0⟩ : RGBA) :=
      h1.trans (hc.trans h2.symm)
    simp [convertRGBPixel] at hcontr

/-- C6 (amended): normalization re-encodes every decodable image as JPEG at
quality 90, and alpha is discarded by dropping the channel — two pixels
with the same colour channels normalize identically whatever their alpha. -/
theorem normalize_canonical (img : PILImage) :
    (normalize img).format = "JPEG"
    ∧ (normalize img).quality = 90
    ∧ (normalize img).pixels = img.pixels.map convertRGBPixel
    ∧ ∀ p q : RGBA, p.r = q.r → p.g = q.g → p.b = q.b →
        convertRGBPixel p = convertRGBPixel q := by
  refine ⟨rfl, rfl, rfl, ?_⟩
  intro p q hr hg hb
  simp [convertRGBPixel, hr, hg, hb]

/-- C6 witness: concrete image and pixels differing only in alpha. -/
theorem normalize_canonical_witness :
    (normalize ⟨[⟨1, 2, 3, 0⟩]⟩).format = "JPEG"
    ∧ convertRGBPixel ⟨1, 2, 3, 0⟩ = convertRGBPixel ⟨1, 2, 3, 255⟩ :=
  ⟨(normalize_canonical ⟨[⟨1, 2, 3, 0⟩]⟩).1,
   (normalize_canonical ⟨[⟨1, 2, 3, 0⟩]⟩).2.2.2 ⟨1, 2, 3, 0⟩ ⟨1, 2, 3, 255⟩ rfl rfl rfl⟩

/-- C7: with a valid key, a decodable upload always reaches the interactive
stage whatever its encoded size; the warning flag is set exactly when the
size exceeds 18 MiB, and a button press still performs its inference call. -/
theorem size_soft_threshold (env secrets : Option String) (img : PILImage)
    (encLen : JPEGEncoding → Nat) (hkey : truthy (GEMINI_KEY env secrets) = true) :
    runScript env secrets (some (UploadOutcome.decodeOk img)) encLen
      = FlowStage.interactive (normalize img) (sizeWarned (encLen (normalize img)))
    ∧ (∀ n : Nat, sizeWarned n = true ↔ 18 * 1048576 < n)
    ∧ (∀ q, inferenceCalls
        (runScript env secrets (some (UploadOutcome.decodeOk img)) encLen)
        (some Action.findDisease) q = 1) := by
  refine ⟨by simp [runScript, hkey], fun n => by simp [sizeWarned], fun q => ?_⟩
  simp [runScript, hkey, inferenceCalls]

/-- C7 witness: an encoding 19 MiB long warns but the flow is interactive. -/
theorem size_soft_threshold_witness :
    truthy (GEMINI_KEY (some "k2") none) = true
    ∧ runScript (some "k2") none (some (UploadOutcome.decodeOk ⟨[]⟩)) (fun _ => 19 * 1048576)
        = FlowStage.interactive (normalize ⟨[]⟩) (sizeWarned (19 * 1048576))
    ∧ sizeWarned (19 * 1048576) = true :=
  ⟨by decide,
   (size_soft_threshold (some "k2") none ⟨[]⟩ (fun _ => 19 * 1048576) (by decide)).1,
   by decide⟩

/-- C8: for every action the outbound content parts are exactly the image
part (with JPEG mime type) first and the prompt text second. -/
theorem request_image_then_text (act : Action) (imageBytes : JPEGEncoding) (q : String) :
    requestFor act imageBytes q
      = [Part.imagePart imageBytes "image/jpeg", Part.textPart (promptFor act q)]
    ∧ (requestFor act imageBytes q).length = 2 := by
  cases act <;> exact ⟨rfl, rfl⟩

/-- C9: with the key absent from both the environment and the secrets
store, the script halts at startup with the configuration error, before
any upload handling, and no inference call can happen in that run. -/
theorem missing_key_halts (env secrets : Option String) (upload : Option UploadOutcome)
    (encLen : JPEGEncoding → Nat) (henv : env = none) (hsec : secrets = none) :
    runScript env secrets upload encLen
      = FlowStage.haltedNoKey "Gemini API key not set. Set GEMINI_API_KEY in environment or in Streamlit secrets."
    ∧ ∀ pressed q, inferenceCalls (runScript env secrets upload encLen) pressed q = 0 := by
  subst henv hsec
  constructor
  · simp [runScript, GEMINI_KEY, truthy]
  · intro pressed q
    cases pressed <;> simp [runScript, GEMINI_KEY, truthy, inferenceCalls]

/-- C9 witness: both sources absent, upload present: still halted at
startup. -/
theorem missing_key_halts_witness :
    runScript none none (some (UploadOutcome.decodeOk ⟨[]⟩)) (fun _ => 0)
      = FlowStage.haltedNoKey "Gemini API key not set. Set GEMINI_API_KEY in environment or in Streamlit secrets." :=
  (missing_key_halts none none (some (UploadOutcome.decodeOk ⟨[]⟩)) (fun _ => 0) rfl rfl).1

/-- C10: call_gemini_with_image is total over call outcomes: it always
returns a string, on an exception that string is exactly "Error calling
Gemini API: " followed by the message, and the button handlers render it
through the same subheader-then-write path as a successful response. -/
theorem call_gemini_total_uniform_display (outcome : CallOutcome) (e heading : String) :
    call_gemini_with_image (CallOutcome.exn e) = "Error calling Gemini API: " ++ e
    ∧ buttonRender heading outcome
        = [UIEvent.subheader heading, UIEvent.write (call_gemini_with_image outcome)]
    ∧ ∃ s : String, call_gemini_with_image outcome = s :=
  ⟨rfl, rfl, ⟨call_gemini_with_image outcome, rfl⟩⟩

end AgriApp
